import Mathlib

/-!
Shallow embedding of the smart-light core of `iot_app` (file
`iot_app/iot/lights.py`): the `Color` value type, the per-bulb `Light`
state machine with its guarded mutators and background refresh, and the
fleet-level `LightManager` operations that the specification talks about.

Device calls (the yeelight `Bulb` transport) are modelled at the interface
boundary: each mutator takes the outcome of the single device call it may
issue (`devOk : Bool`, or `Option DeviceProps` for a refresh read) and
returns the list of device calls issued, the resulting cached state, and
the Python exception raised, if any.  Python `int` is modelled as `Int`
(arbitrary precision, no overflow), Python strings of light names as lists
of code points, and Python dicts of effect keyword arguments as
association lists.

Everything lives in the `IotLights` namespace to keep the source names
(`Flow`, `Color`, ...) without clashing with Mathlib.
-/

namespace IotLights

/-- Python exceptions that the modelled code can raise.  The source uses
`ValueError` for caller validation failures, its own `LightException`
(with distinct messages) both for bad effect parameters and for device
connection failures, and the interpreter itself raises `KeyError` /
`TypeError` / `AttributeError` for the unguarded operations. -/
inductive PyError where
  | valueError (msg : String)
  | lightException (msg : String)
  | keyError (key : String)
  | typeError (msg : String)
  | attributeError (msg : String)
deriving DecidableEq, Repr

/-- Transition programs from `yeelight.transitions`; external library
functions, modelled symbolically as tagged data carrying the parameters
the source passes to them. -/
inductive Transitions where
  | disco
  | strobe
  | lsd (duration : Int)
  | police (duration : Int)
  | randomloop (duration : Int)
  | pulse (red green blue : Int) (duration : Int)
deriving DecidableEq, Repr

/-- A yeelight `Flow`: a repeat count (0 means loop forever) plus a
transition program. -/
structure Flow where
  count : Int
  transitions : Transitions
deriving DecidableEq, Repr

/-- Commands issued on the bulb transport (`yeelight.Bulb` methods). -/
inductive DeviceCall where
  | set_brightness (n : Int)
  | set_rgb (red green blue : Int)
  | turn_on
  | turn_off
  | start_flow (f : Flow)
  | stop_flow
  | get_properties
deriving DecidableEq, Repr

/-- The `Color` class: three channels, stored exactly as supplied (the
constructor performs no validation).  Channels are `Int` because the RGB
tuple path of the color setter can pass any Python integers through. -/
structure Color where
  red : Int
  green : Int
  blue : Int
deriving DecidableEq, Repr

/-- `Color.from_rgb_int`: unpack a nonnegative packed integer by masking
(`and 255` on a nonnegative Python int is `% 256`, `>> k` is division by
`2 ^ k`). -/
def Color.from_rgb_int (rgb_int : Nat) : Color :=
  { red := ((rgb_int >>> 16) % 256 : Nat)
    green := ((rgb_int >>> 8) % 256 : Nat)
    blue := (rgb_int % 256 : Nat) }

/-- Packed 24-bit integer of a color, `red<<16 | green<<8 | blue` (the
spec formula; for in-range channels bitwise or is addition). -/
def Color.rgb_int (c : Color) : Int :=
  c.red * 65536 + c.green * 256 + c.blue

/-- Value of one hexadecimal digit character, as Python `int(ch, 16)`
classifies characters (decimal digits, lowercase a-f, uppercase A-F). -/
def hexDigitVal (c : Char) : Option Nat :=
  if 48 ≤ c.toNat ∧ c.toNat ≤ 57 then some (c.toNat - 48)
  else if 97 ≤ c.toNat ∧ c.toNat ≤ 102 then some (c.toNat - 87)
  else if 65 ≤ c.toNat ∧ c.toNat ≤ 70 then some (c.toNat - 55)
  else none

/-- Lowercase hexadecimal digit character for a value below 16, as
produced by the Python format directive `%x`. -/
def hexDigitChar (n : Nat) : Char :=
  if n < 10 then Char.ofNat (48 + n) else Char.ofNat (87 + n)

/-- `webcolors.normalize_integer_rgb`: clamp one channel into 0..255
(applied by `rgb_to_hex` before rendering). -/
def normalize_integer_rgb (v : Int) : Nat :=
  if v < 0 then 0 else if 255 < v then 255 else v.toNat

/-- Two lowercase hex digits of a byte (`%02x` on a value below 256). -/
def byteHex (n : Nat) : List Char :=
  [hexDigitChar (n / 16), hexDigitChar (n % 16)]

/-- `Color.hex`, via `webcolors.rgb_to_hex`: clamp each channel and render
`#rrggbb` in lowercase.  Strings are modelled as lists of characters. -/
def Color.hex (c : Color) : List Char :=
  '#' :: (byteHex (normalize_integer_rgb c.red)
    ++ byteHex (normalize_integer_rgb c.green)
    ++ byteHex (normalize_integer_rgb c.blue))

/-- `Color.from_hex`, via `webcolors.normalize_hex` + `hex_to_rgb`: the
input must be a hash sign followed by exactly three or six hex digits
(three-digit form doubles each digit); anything else raises the
`ValueError` with the message of the source.  Case is irrelevant because
`hexDigitVal` accepts both cases, matching the normalization. -/
def Color.from_hex : List Char → Except PyError Color
  | '#' :: a :: b :: c :: d :: e :: f :: [] =>
    match hexDigitVal a, hexDigitVal b, hexDigitVal c,
          hexDigitVal d, hexDigitVal e, hexDigitVal f with
    | some va, some vb, some vc, some vd, some ve, some vf =>
      .ok { red := (16 * va + vb : Nat), green := (16 * vc + vd : Nat),
            blue := (16 * ve + vf : Nat) }
    | _, _, _, _, _, _ =>
      .error (.valueError "Hex color value supplied is invalid")
  | '#' :: a :: b :: c :: [] =>
    match hexDigitVal a, hexDigitVal b, hexDigitVal c with
    | some va, some vb, some vc =>
      .ok { red := (16 * va + va : Nat), green := (16 * vb + vb : Nat),
            blue := (16 * vc + vc : Nat) }
    | _, _, _ =>
      .error (.valueError "Hex color value supplied is invalid")
  | _ => .error (.valueError "Hex color value supplied is invalid")

/-- Cached state of one `Light` instance.  `ip` and `id` never change
after construction; `name` is kept as a list of code points so that the
case-sensitive name lookup of the manager can be stated. -/
structure LightState where
  ip : String
  name : List Nat
  is_default : Bool
  is_connected : Bool
  brightness : Int
  is_on : Bool
  color : Option Color
  is_flowing : Bool
  effect : Option String
  effect_props : List (String × Int)
deriving DecidableEq, Repr

/-- Field initialisation performed by `Light.__init__` before its first
refresh: brightness 0, off, no color, no effect. -/
def init_light (ip : String) (name : List Nat) (is_default : Bool)
    (is_connected : Bool) : LightState :=
  { ip := ip, name := name, is_default := is_default,
    is_connected := is_connected, brightness := 0, is_on := false,
    color := none, is_flowing := false, effect := none, effect_props := [] }

/-- Result of running one mutator: the device calls it issued in order,
the cached state afterwards (Python mutates in place, so state changes
made before an exception persist), and the exception raised, if any. -/
structure Outcome where
  calls : List DeviceCall
  state : LightState
  error : Option PyError
deriving DecidableEq, Repr

/-- `Light.__clear_effect`: reset the effect bookkeeping. -/
def clear_effect (s : LightState) : LightState :=
  { s with is_flowing := false, effect := none, effect_props := [] }

/-- `Light.__clear_connection_props`: mark disconnected and clear the
effect bookkeeping (nothing else is touched). -/
def clear_connection_props (s : LightState) : LightState :=
  { clear_effect s with is_connected := false }

/-- Message of the `LightException` raised by
`Light.__handle_connection_failure`, naming the bulb address. -/
def connectionErrorMsg (ip : String) : String :=
  "Cannot connect to the smart bulb with IP: " ++ ip

/-- The brightness setter: validate the range, then issue the device
command; on `BulbException` the connection-failure handler runs (clearing
connection props and raising), so the attempted value is cached only on
success. -/
def set_brightness (s : LightState) (new_brightness : Int) (devOk : Bool) :
    Outcome :=
  if ¬ (1 ≤ new_brightness ∧ new_brightness ≤ 100) then
    ⟨[], s, some (.valueError "Brightness must be between 1 and 100")⟩
  else if devOk then
    ⟨[.set_brightness new_brightness],
     { s with brightness := new_brightness }, none⟩
  else
    ⟨[.set_brightness new_brightness], clear_connection_props s,
     some (.lightException (connectionErrorMsg s.ip))⟩

/-- The value passed to the color setter: a `Color` object, a hex string,
an RGB triple, or a value of any other type. -/
inductive ColorArg where
  | colorObj (c : Color)
  | hexStr (h : List Char)
  | rgbTuple (t : Int × Int × Int)
  | otherType

/-- Shared tail of the color setter once a `Color` object is in hand:
issue `set_rgb` and cache the object only if the call did not fail. -/
def set_color_obj (s : LightState) (c : Color) (devOk : Bool) : Outcome :=
  if devOk then
    ⟨[.set_rgb c.red c.green c.blue], { s with color := some c }, none⟩
  else
    ⟨[.set_rgb c.red c.green c.blue], clear_connection_props s,
     some (.lightException (connectionErrorMsg s.ip))⟩

/-- The color setter: type-check the argument, convert it to a `Color`
(the tuple path calls the `Color` constructor directly, with no range
validation), then issue the device command and cache. -/
def set_color (s : LightState) (new_color : ColorArg) (devOk : Bool) :
    Outcome :=
  match new_color with
  | .otherType =>
    ⟨[], s, some (.valueError "Color must be Color object, hex string or RGB tuple")⟩
  | .colorObj c => set_color_obj s c devOk
  | .hexStr h =>
    match Color.from_hex h with
    | .ok c => set_color_obj s c devOk
    | .error e => ⟨[], s, some e⟩
  | .rgbTuple t => set_color_obj s ⟨t.1, t.2.1, t.2.2⟩ devOk

/-- The power setter (`Light.on`): true issues turn_on, false issues
turn_off and then clears the effect; the new value is cached unless the
device call failed (the failure handler raises before the assignment). -/
def set_on (s : LightState) (new_on : Bool) (devOk : Bool) : Outcome :=
  if new_on then
    if devOk then ⟨[.turn_on], { s with is_on := true }, none⟩
    else ⟨[.turn_on], clear_connection_props s,
          some (.lightException (connectionErrorMsg s.ip))⟩
  else
    if devOk then ⟨[.turn_off], { clear_effect s with is_on := false }, none⟩
    else ⟨[.turn_off], clear_connection_props s,
          some (.lightException (connectionErrorMsg s.ip))⟩

/-- Keyword arguments accepted by the effect constructor of each key of
`Light.effects_map`; `none` for a name that is not a key of the map.
Every parameter has a default, so a missing key is never an error. -/
def effectAccepted : String → Option (List String)
  | "disco" => some ["count"]
  | "lsd" => some ["duration", "count"]
  | "police" => some ["count", "duration"]
  | "strobe" => some ["count"]
  | "random" => some ["count", "duration"]
  | _ => none

/-- Keyword lookup with the constructor default. -/
def lookupProp (props : List (String × Int)) (k : String) (dflt : Int) : Int :=
  match props.lookup k with
  | some v => v
  | none => dflt

/-- The `Flow` built by `effect.get_flow()` for a known effect name and
accepted keyword arguments, with the default values of the source
constructors. -/
def mkEffectFlow (nm : String) (props : List (String × Int)) : Flow :=
  if nm = "disco" then ⟨lookupProp props "count" 0, .disco⟩
  else if nm = "lsd" then
    ⟨lookupProp props "count" 0, .lsd (lookupProp props "duration" 1000)⟩
  else if nm = "police" then
    ⟨lookupProp props "count" 0, .police (lookupProp props "duration" 300)⟩
  else if nm = "strobe" then ⟨lookupProp props "count" 0, .strobe⟩
  else ⟨lookupProp props "count" 0, .randomloop (lookupProp props "duration" 500)⟩

/-- `Light.set_effect`: a `none` name stops the flow and clears the
bookkeeping.  A name that is not a key of `effects_map` raises a bare
`KeyError` (the subscript is outside both handlers).  An unknown keyword
argument makes the constructor raise `TypeError`, caught and re-raised as
the `LightException` about incorrect props, before any device call.
Otherwise `start_flow` is issued and on success the name and props are
recorded with `is_flowing := true`; a `BulbException` anywhere inside runs
the connection-failure handler. -/
def set_effect (s : LightState) (effect_name : Option String)
    (effect_props : List (String × Int)) (devOk : Bool) : Outcome :=
  match effect_name with
  | none =>
    if devOk then ⟨[.stop_flow], clear_effect s, none⟩
    else ⟨[.stop_flow], clear_connection_props s,
          some (.lightException (connectionErrorMsg s.ip))⟩
  | some nm =>
    match effectAccepted nm with
    | none => ⟨[], s, some (.keyError nm)⟩
    | some keys =>
      if effect_props.all (fun kv => keys.contains kv.1) then
        if devOk then
          ⟨[.start_flow (mkEffectFlow nm effect_props)],
           { s with is_flowing := true, effect := some nm,
                    effect_props := effect_props }, none⟩
        else
          ⟨[.start_flow (mkEffectFlow nm effect_props)],
           clear_connection_props s,
           some (.lightException (connectionErrorMsg s.ip))⟩
      else
        ⟨[], s, some (.lightException "Props supplied to effect are incorrect")⟩

/-- Properties reported by `Bulb.get_properties` (string-valued in the
wire protocol; `bright` and `rgb` are parsed with `int`). -/
structure DeviceProps where
  bright : Int
  power : String
  rgb : Nat
  flowing : String
deriving DecidableEq, Repr

/-- `Light.__refresh_props`: on a successful read, mark connected and
overwrite brightness, power, color and the flowing flag from the device
(the recorded effect name and props are not touched); on `BulbException`,
clear the connection props. -/
def refresh_props (s : LightState) (dev : Option DeviceProps) : LightState :=
  match dev with
  | some p =>
    { s with is_connected := true, brightness := p.bright,
             is_on := p.power == "on",
             color := some (Color.from_rgb_int p.rgb),
             is_flowing := p.flowing == "1" }
  | none => clear_connection_props s

/-- ASCII fragment of Python `str.upper` on one code point (the unicode
mapping never produces an ASCII lowercase letter, so this fragment is
faithful for the lowercase-reachability question). -/
def pyUpperCode (c : Nat) : Nat :=
  if 97 ≤ c ∧ c ≤ 122 then c - 32 else c

/-- Whether a code point is an ASCII lowercase letter. -/
def isLowerCode (c : Nat) : Bool :=
  decide (97 ≤ c) && decide (c ≤ 122)

/-- Python `str.upper` over a whole name. -/
def pyUpper (s : List Nat) : List Nat := s.map pyUpperCode

/-- `LightManager.get_light_by_name`: linear scan comparing each stored
name with the query converted to upper case. -/
def get_light_by_name (lights : List LightState) (name : List Nat) :
    Option LightState :=
  lights.find? (fun light => light.name == pyUpper name)

/-- `LightManager.default_lights`. -/
def default_lights (lights : List LightState) : List LightState :=
  lights.filter (fun light => light.is_default)

/-- The RGB triples of `NotificationLevel`. -/
def NotificationLevel.OK : Int × Int × Int := (0, 255, 100)

/-- INFO level color. -/
def NotificationLevel.INFO : Int × Int × Int := (0, 150, 255)

/-- WARNING level color. -/
def NotificationLevel.WARNING : Int × Int × Int := (255, 150, 0)

/-- ERROR level color. -/
def NotificationLevel.ERROR : Int × Int × Int := (255, 0, 50)

/-- A Python value that can appear in the `bulbs` variable of
`LightManager.notify`: a `Light` instance, a raw yeelight `Bulb` handle
(identified by its address), or a Python list of such values. -/
inductive PyVal where
  | lightRef (l : LightState)
  | bulbRef (ip : String)
  | listVal (elems : List PyVal)

/-- Attribute lookup plus call of `.start_flow(flow)` on a Python value.
A raw yeelight `Bulb` has the method and the flow starts; a `Light`
instance does not (its `Bulb` handle is a name-mangled private field and
the class defines no `start_flow`), and a list does not either, so both
raise `AttributeError`. -/
def startFlowAttr (v : PyVal) (f : Flow) : Except PyError (String × Flow) :=
  match v with
  | .bulbRef ip => .ok (ip, f)
  | .lightRef _ =>
    .error (.attributeError "Light object has no attribute start_flow")
  | .listVal _ =>
    .error (.attributeError "list object has no attribute start_flow")

/-- The `for bulb in bulbs` loop of `notify`: flows started so far, and
the first exception, which aborts the loop. -/
def notifyLoop (f : Flow) : List PyVal → List (String × Flow) × Option PyError
  | [] => ([], none)
  | v :: rest =>
    match startFlowAttr v f with
    | .ok started =>
      let r := notifyLoop f rest
      (started :: r.1, r.2)
    | .error e => ([], some e)

/-- `LightManager.notify`: build the 3-repeat pulse flow for the level,
and when no explicit targets were passed, set `bulbs` to the singleton
list containing the list of default lights (exactly as the source line
`bulbs = [self.default_lights]` does), then start the flow on each
element. -/
def notify (lights : List LightState) (level : Int × Int × Int)
    (notify_duration : Int) (bulbs : List PyVal) :
    List (String × Flow) × Option PyError :=
  let flow : Flow :=
    ⟨3, .pulse level.1 level.2.1 level.2.2 notify_duration⟩
  let targets :=
    if bulbs.isEmpty then
      [PyVal.listVal ((default_lights lights).map PyVal.lightRef)]
    else bulbs
  notifyLoop flow targets

/-- The invariant claimed by the spec for the effect bookkeeping. -/
def effect_invariant (s : LightState) : Prop :=
  s.is_flowing = true ↔ s.effect.isSome = true

instance (s : LightState) : Decidable (effect_invariant s) :=
  inferInstanceAs (Decidable (s.is_flowing = true ↔ s.effect.isSome = true))

/-- A concrete light used to instantiate universally quantified theorems. -/
def sampleLight : LightState :=
  { ip := "192.168.1.2", name := [76, 65, 77, 80], is_default := true,
    is_connected := true, brightness := 40, is_on := true,
    color := some (Color.from_rgb_int 65280), is_flowing := false,
    effect := none, effect_props := [] }

/-- A second concrete light, not in the default group. -/
def sampleOtherLight : LightState :=
  { ip := "192.168.1.3", name := [68, 69, 83, 75], is_default := false,
    is_connected := true, brightness := 80, is_on := false,
    color := none, is_flowing := false, effect := none, effect_props := [] }


/-- Device properties used to drive refresh ticks in concrete tests. -/
def sampleProps : DeviceProps := ⟨50, "on", 65280, "1"⟩

/-- The two-light fleet used for the notification test. -/
def sampleFleet : List LightState := [sampleLight, sampleOtherLight]

/-- Each channel of a color is within the 8-bit range. -/
def channels_in_range (c : Color) : Prop :=
  0 ≤ c.red ∧ c.red ≤ 255 ∧ 0 ≤ c.green ∧ c.green ≤ 255 ∧
    0 ≤ c.blue ∧ c.blue ≤ 255

instance (c : Color) : Decidable (channels_in_range c) :=
  inferInstanceAs (Decidable (0 ≤ c.red ∧ c.red ≤ 255 ∧ 0 ≤ c.green ∧
    c.green ≤ 255 ∧ 0 ≤ c.blue ∧ c.blue ≤ 255))

theorem hexDigitVal_hexDigitChar : ∀ d : Nat, d < 16 →
    hexDigitVal (hexDigitChar d) = some d := by
  decide

theorem hexDigitVal_lt (c : Char) (v : Nat) (h : hexDigitVal c = some v) :
    v < 16 := by
  unfold hexDigitVal at h
  split at h
  · injection h with h; omega
  · split at h
    · injection h with h; omega
    · split at h
      · injection h with h; omega
      · exact absurd h (by simp)

theorem normalize_integer_rgb_ofNat (r : Nat) (h : r ≤ 255) :
    normalize_integer_rgb (r : Int) = r := by
  unfold normalize_integer_rgb
  split
  · omega
  · split
    · omega
    · omega

theorem from_hex_hex (r g b : Nat) (hr : r ≤ 255) (hg : g ≤ 255)
    (hb : b ≤ 255) :
    Color.from_hex (Color.hex ⟨(r : Int), (g : Int), (b : Int)⟩) =
      .ok ⟨(r : Int), (g : Int), (b : Int)⟩ := by
  have hdr := hexDigitVal_hexDigitChar (r / 16) (by omega)
  have hmr := hexDigitVal_hexDigitChar (r % 16) (by omega)
  have hdg := hexDigitVal_hexDigitChar (g / 16) (by omega)
  have hmg := hexDigitVal_hexDigitChar (g % 16) (by omega)
  have hdb := hexDigitVal_hexDigitChar (b / 16) (by omega)
  have hmb := hexDigitVal_hexDigitChar (b % 16) (by omega)
  simp only [Color.hex, normalize_integer_rgb_ofNat r hr,
    normalize_integer_rgb_ofNat g hg, normalize_integer_rgb_ofNat b hb,
    byteHex, List.cons_append, List.nil_append]
  simp only [Color.from_hex, hdr, hmr, hdg, hmg, hdb, hmb, Nat.div_add_mod]

/-- C5: for every in-range brightness n, a failing device brightness
command leaves the Light disconnected, raises the connection
`LightException` naming the bulb address, and does not store the
attempted value (the cached brightness is unchanged). -/
theorem C5_brightness_device_failure :
    ∀ (s : LightState) (n : Int), 1 ≤ n → n ≤ 100 →
      set_brightness s n false =
        ⟨[.set_brightness n], clear_connection_props s,
         some (.lightException (connectionErrorMsg s.ip))⟩ ∧
      connectionErrorMsg s.ip =
        "Cannot connect to the smart bulb with IP: " ++ s.ip ∧
      (clear_connection_props s).brightness = s.brightness ∧
      (clear_connection_props s).is_connected = false := by
  intro s n h1 h2
  refine ⟨?_, rfl, rfl, rfl⟩
  simp [set_brightness, h1, h2]

/-- C5 witness: the failure path evaluated on a concrete light at
brightness 50. -/
theorem C5_witness :
    set_brightness sampleLight 50 false =
      ⟨[.set_brightness 50], clear_connection_props sampleLight,
       some (.lightException (connectionErrorMsg sampleLight.ip))⟩ ∧
    connectionErrorMsg sampleLight.ip =
      "Cannot connect to the smart bulb with IP: " ++ sampleLight.ip ∧
    (clear_connection_props sampleLight).brightness =
      sampleLight.brightness ∧
    (clear_connection_props sampleLight).is_connected = false :=
  C5_brightness_device_failure sampleLight 50 (by norm_num) (by norm_num)

/-- C6: a device brightness command is issued exactly when the value is
in 1..100; any out-of-range value raises the `ValueError`, issues no
device call and leaves the whole cached state unchanged, and an in-range
value with a healthy device succeeds and caches the value. -/
theorem C6_brightness_validation :
    ∀ (s : LightState) (n : Int) (devOk : Bool),
      ((set_brightness s n devOk).calls ≠ [] ↔ 1 ≤ n ∧ n ≤ 100) ∧
      (1 ≤ n → n ≤ 100 →
        (set_brightness s n true).error = none ∧
        (set_brightness s n true).state = { s with brightness := n }) ∧
      (¬ (1 ≤ n ∧ n ≤ 100) →
        set_brightness s n devOk =
          ⟨[], s, some (.valueError "Brightness must be between 1 and 100")⟩) := by
  intro s n devOk
  by_cases h : 1 ≤ n ∧ n ≤ 100
  · cases devOk <;>
      simp [set_brightness, h, h.1, h.2]
  · refine ⟨by simp [set_brightness, h], ?_, fun _ => by simp [set_brightness, h]⟩
    intro h1 h2
    exact absurd ⟨h1, h2⟩ h

/-- C6 witness: an in-range and an out-of-range brightness evaluated on a
concrete light. -/
theorem C6_witness :
    (set_brightness sampleLight 50 true).error = none ∧
    (set_brightness sampleLight 50 true).state =
      { sampleLight with brightness := 50 } ∧
    set_brightness sampleLight 0 true =
      ⟨[], sampleLight, some (.valueError "Brightness must be between 1 and 100")⟩ :=
  ⟨((C6_brightness_validation sampleLight 50 true).2.1 (by norm_num) (by norm_num)).1,
   ((C6_brightness_validation sampleLight 50 true).2.1 (by norm_num) (by norm_num)).2,
   (C6_brightness_validation sampleLight 0 true).2.2 (by norm_num)⟩

/-- C7: a successful power-off issues `turn_off` and clears the effect
bookkeeping on every state (in particular on an already-off light), and a
successful power-on issues `turn_on` and leaves the effect bookkeeping
untouched. -/
theorem C7_power_off_clears_effect :
    ∀ s : LightState,
      set_on s false true =
        ⟨[.turn_off], { clear_effect s with is_on := false }, none⟩ ∧
      (set_on s false true).state.is_flowing = false ∧
      (set_on s false true).state.effect = none ∧
      (set_on s false true).state.effect_props = [] ∧
      set_on s true true = ⟨[.turn_on], { s with is_on := true }, none⟩ ∧
      (set_on s true true).state.effect = s.effect ∧
      (set_on s true true).state.is_flowing = s.is_flowing := by
  intro s
  exact ⟨rfl, rfl, rfl, rfl, rfl, rfl, rfl⟩

/-- C9: converting any 24-bit packed integer to a `Color`, rendering its
hex string and parsing it back yields the same color, whose packed
integer is the original value. -/
theorem C9_hex_roundtrip :
    ∀ x : Nat, x ≤ 0xFFFFFF →
      Color.from_hex (Color.hex (Color.from_rgb_int x)) =
        .ok (Color.from_rgb_int x) ∧
      (Color.from_rgb_int x).rgb_int = (x : Int) := by
  intro x hx
  have h16 : x >>> 16 = x / 65536 := by
    rw [Nat.shiftRight_eq_div_pow]
  have h8 : x >>> 8 = x / 256 := by
    rw [Nat.shiftRight_eq_div_pow]
  constructor
  · exact from_hex_hex ((x >>> 16) % 256) ((x >>> 8) % 256) (x % 256)
      (by omega) (by omega) (by omega)
  · simp only [Color.rgb_int, Color.from_rgb_int, h16, h8]
    push_cast
    omega

/-- C9 witness: the round trip evaluated at the packed integer of pure
green. -/
theorem C9_witness :
    Color.from_hex (Color.hex (Color.from_rgb_int 65280)) =
      .ok (Color.from_rgb_int 65280) ∧
    (Color.from_rgb_int 65280).rgb_int = (65280 : Int) :=
  C9_hex_roundtrip 65280 (by norm_num)

theorem isLowerCode_pyUpperCode (c : Nat) :
    isLowerCode (pyUpperCode c) = false := by
  unfold pyUpperCode isLowerCode
  split <;> simp <;> omega

/-- C10: the name lookup returns a light only when its stored name equals
the query converted to upper case; such a name contains no lowercase
letter, so a light whose stored name has one is unreachable by name. -/
theorem C10_lookup_requires_uppercase_name :
    ∀ (lights : List LightState) (q : List Nat) (l : LightState),
      get_light_by_name lights q = some l →
        l.name = pyUpper q ∧ (∀ c ∈ l.name, isLowerCode c = false) := by
  intro lights q l hfind
  have hp := List.find?_some hfind
  have hname : l.name = pyUpper q := by simpa using hp
  refine ⟨hname, ?_⟩
  intro c hc
  rw [hname] at hc
  rcases List.mem_map.mp hc with ⟨c0, _, rfl⟩
  exact isLowerCode_pyUpperCode c0

/-- C10 witness: querying the lowercase string for a light stored with an
uppercase name finds it, and its name has no lowercase letter. -/
theorem C10_witness :
    sampleLight.name = pyUpper [108, 97, 109, 112] ∧
    isLowerCode 76 = false :=
  ⟨(C10_lookup_requires_uppercase_name [sampleLight] [108, 97, 109, 112]
      sampleLight (by decide)).1,
   (C10_lookup_requires_uppercase_name [sampleLight] [108, 97, 109, 112]
      sampleLight (by decide)).2 76 (by decide)⟩

/-- C1 counterexample: starting from the construction-time state (which
satisfies the invariant), one refresh tick whose device read reports
`flowing = 1` leaves `is_flowing` true with no recorded effect, so the
claimed invariant fails on a reachable state. -/
theorem C1_counterexample :
    (refresh_props (init_light "192.168.1.2" [] false true)
        (some sampleProps)).is_flowing = true ∧
    (refresh_props (init_light "192.168.1.2" [] false true)
        (some sampleProps)).effect = none ∧
    ¬ effect_invariant (refresh_props (init_light "192.168.1.2" [] false true)
        (some sampleProps)) := by
  decide

theorem effect_invariant_bool (s : LightState) (h : effect_invariant s) :
    s.is_flowing = s.effect.isSome := by
  cases hf : s.is_flowing <;> cases he : s.effect.isSome <;>
    simp_all [effect_invariant]

/-- C1 (amended): the construction-time state satisfies the invariant and
every mutator preserves it, but a successful refresh tick copies only the
flowing flag from the device and never touches the recorded effect, so
after a tick reading `flowing = 1` no active effect is recorded. -/
theorem C1_effect_invariant_amended :
    (∀ ip nm d conn, effect_invariant (init_light ip nm d conn)) ∧
    (∀ s : LightState, effect_invariant s →
      (∀ nm props devOk, effect_invariant (set_effect s nm props devOk).state) ∧
      (∀ b devOk, effect_invariant (set_on s b devOk).state) ∧
      (∀ n devOk, effect_invariant (set_brightness s n devOk).state) ∧
      (∀ arg devOk, effect_invariant (set_color s arg devOk).state) ∧
      effect_invariant (refresh_props s none) ∧
      (∀ p, (refresh_props s (some p)).effect = s.effect ∧
            (refresh_props s (some p)).is_flowing = (p.flowing == "1"))) := by
  constructor
  · intro ip nm d conn
    simp [effect_invariant, init_light]
  intro s h
  refine ⟨?_, ?_, ?_, ?_, ?_, ?_⟩
  · intro nm props devOk
    cases nm with
    | none =>
      cases devOk <;>
        simp [set_effect, effect_invariant, clear_effect, clear_connection_props]
    | some nm =>
      cases hacc : effectAccepted nm with
      | none => simpa [set_effect, hacc] using h
      | some keys =>
        cases devOk <;>
          · simp only [set_effect, hacc]
            split
            · simp [effect_invariant, clear_effect, clear_connection_props]
            · simpa [effect_invariant] using h
  · intro b devOk
    cases b <;> cases devOk <;>
      simp [set_on, effect_invariant, clear_effect, clear_connection_props] <;>
        exact effect_invariant_bool s h
  · intro n devOk
    by_cases hn : 1 ≤ n ∧ n ≤ 100
    · cases devOk <;>
        simp [set_brightness, hn, effect_invariant,
          clear_effect, clear_connection_props] <;>
          exact effect_invariant_bool s h
    · simpa [set_brightness, hn] using h
  · intro arg devOk
    have hobj : ∀ c, effect_invariant (set_color_obj s c devOk).state := by
      intro c
      cases devOk <;>
        simp [set_color_obj, effect_invariant,
          clear_effect, clear_connection_props] <;>
          exact effect_invariant_bool s h
    cases arg with
    | otherType => simpa [set_color] using h
    | colorObj c => simpa [set_color] using hobj c
    | rgbTuple t => simpa [set_color] using hobj _
    | hexStr hx =>
      cases hfh : Color.from_hex hx with
      | ok c => simpa [set_color, hfh] using hobj c
      | error e => simpa [set_color, hfh] using h
  · simp [refresh_props, effect_invariant, clear_effect, clear_connection_props]
  · intro p
    exact ⟨rfl, rfl⟩

/-- C1 witness: the preserved invariant evaluated after starting the disco
effect on a concrete light, and the refresh behaviour at a concrete
device read. -/
theorem C1_witness :
    effect_invariant (set_effect sampleLight (some "disco") [] true).state ∧
    (refresh_props sampleLight (some sampleProps)).effect =
      sampleLight.effect :=
  ⟨(C1_effect_invariant_amended.2 sampleLight (by decide)).1
      (some "disco") [] true,
   ((C1_effect_invariant_amended.2 sampleLight (by decide)).2.2.2.2.2
      sampleProps).1⟩

/-- C2 counterexample: a light that is on suffers a device failure during
a brightness command; it becomes disconnected, yet the cached power flag
is still true, so the live fields are not reset to the off default. -/
theorem C2_counterexample :
    (set_brightness sampleLight 50 false).state.is_connected = false ∧
    (set_brightness sampleLight 50 false).state.is_on = true := by
  decide

/-- C2 (amended): every device-call failure and every failed refresh tick
leaves exactly `clear_connection_props` of the prior state, which marks
the light disconnected and clears the effect bookkeeping but keeps the
cached power flag, brightness and color unchanged. -/
theorem C2_disconnect_amended :
    ∀ s : LightState,
      ((∀ n : Int, 1 ≤ n → n ≤ 100 →
          (set_brightness s n false).state = clear_connection_props s) ∧
       (∀ b, (set_on s b false).state = clear_connection_props s) ∧
       (∀ c, (set_color s (.colorObj c) false).state =
          clear_connection_props s) ∧
       (∀ t, (set_color s (.rgbTuple t) false).state =
          clear_connection_props s) ∧
       (∀ props, (set_effect s none props false).state =
          clear_connection_props s) ∧
       (∀ nm keys props, effectAccepted nm = some keys →
          (props.all fun kv => keys.contains kv.1) = true →
          (set_effect s (some nm) props false).state =
            clear_connection_props s) ∧
       refresh_props s none = clear_connection_props s) ∧
      ((clear_connection_props s).is_connected = false ∧
       (clear_connection_props s).is_flowing = false ∧
       (clear_connection_props s).effect = none ∧
       (clear_connection_props s).effect_props = [] ∧
       (clear_connection_props s).is_on = s.is_on ∧
       (clear_connection_props s).brightness = s.brightness ∧
       (clear_connection_props s).color = s.color) := by
  intro s
  refine ⟨⟨?_, ?_, ?_, ?_, ?_, ?_, rfl⟩, rfl, rfl, rfl, rfl, rfl, rfl, rfl⟩
  · intro n h1 h2
    simp [set_brightness, h1, h2]
  · intro b
    cases b <;> simp [set_on]
  · intro c
    simp [set_color, set_color_obj]
  · intro t
    simp [set_color, set_color_obj]
  · intro props
    simp [set_effect]
  · intro nm keys props hacc hall
    simp only [set_effect, hacc]
    rw [if_pos hall]
    simp

/-- C2 witness: the failure path of a brightness command and the
preserved fields evaluated on a concrete light that is on. -/
theorem C2_witness :
    (set_brightness sampleLight 50 false).state =
      clear_connection_props sampleLight ∧
    (clear_connection_props sampleLight).is_connected = false ∧
    (clear_connection_props sampleLight).is_on = sampleLight.is_on :=
  ⟨(C2_disconnect_amended sampleLight).1.1 50 (by norm_num) (by norm_num),
   (C2_disconnect_amended sampleLight).2.1,
   (C2_disconnect_amended sampleLight).2.2.2.2.2.1⟩

/-- C3: calling notify with no explicit targets on a fleet with one
default and one non-default light pulses nothing: the source wraps the
default-light list in another list and calls start_flow on that inner
list object, which raises `AttributeError` before any flow starts, even
though the fleet does have a default light that the claim says must be
pulsed. -/
theorem C3_notify_no_targets_attribute_error :
    default_lights sampleFleet = [sampleLight] ∧
    sampleLight.is_default = true ∧
    notify sampleFleet NotificationLevel.WARNING 500 [] =
      ([], some (.attributeError "list object has no attribute start_flow")) := by
  decide

/-- C4 counterexample: an unknown effect name raises a bare `KeyError`
(the map subscript is outside both handlers), not the `LightException`
used for incorrect props, contradicting the claimed error kind. -/
theorem C4_counterexample :
    set_effect sampleLight (some "rainbow") [] true =
      ⟨[], sampleLight, some (.keyError "rainbow")⟩ ∧
    some (PyError.keyError "rainbow") ≠
      some (PyError.lightException "Props supplied to effect are incorrect") := by
  decide

/-- C4 (amended): an effect name outside `effects_map` fails with an
uncaught `KeyError`, while a known name with an unknown keyword argument
fails with the configuration `LightException`; in both cases no device
call is issued and the cached state is unchanged. -/
theorem C4_effect_errors_amended :
    ∀ (s : LightState) (nm : String) (props : List (String × Int))
      (devOk : Bool),
      (effectAccepted nm = none →
        set_effect s (some nm) props devOk = ⟨[], s, some (.keyError nm)⟩) ∧
      (∀ keys, effectAccepted nm = some keys →
        (props.all fun kv => keys.contains kv.1) = false →
        set_effect s (some nm) props devOk =
          ⟨[], s, some (.lightException "Props supplied to effect are incorrect")⟩) := by
  intro s nm props devOk
  constructor
  · intro hacc
    simp [set_effect, hacc]
  · intro keys hacc hall
    simp only [set_effect, hacc]
    rw [if_neg (by rw [hall]; simp)]

/-- C4 witness: the unknown-name path and the unknown-keyword path
evaluated on a concrete light. -/
theorem C4_witness :
    set_effect sampleLight (some "rainbow") [] true =
      ⟨[], sampleLight, some (.keyError "rainbow")⟩ ∧
    set_effect sampleLight (some "disco") [("speed", 3)] true =
      ⟨[], sampleLight,
       some (.lightException "Props supplied to effect are incorrect")⟩ :=
  ⟨(C4_effect_errors_amended sampleLight "rainbow" [] true).1 rfl,
   (C4_effect_errors_amended sampleLight "disco" [("speed", 3)] true).2
     ["count"] rfl rfl⟩

/-- C8 counterexample: the RGB-triple path of the color setter stores the
raw constructor result without validation, so a triple with a channel
above 255 produces a cached `Color` outside the 8-bit range. -/
theorem C8_counterexample :
    (set_color sampleLight (.rgbTuple (300, 0, 0)) true).state.color =
      some (Color.mk 300 0 0) ∧
    ¬ channels_in_range (Color.mk 300 0 0) := by
  decide

/-- C8 (amended): colors built from a packed integer or parsed from a hex
string always have all channels in 0..255, but a raw RGB triple passed to
the color setter is cached exactly as supplied, with no range check. -/
theorem C8_channel_range_amended :
    (∀ n : Nat, channels_in_range (Color.from_rgb_int n)) ∧
    (∀ (h : List Char) (c : Color), Color.from_hex h = .ok c →
      channels_in_range c) ∧
    (∀ (s : LightState) (t : Int × Int × Int),
      (set_color s (.rgbTuple t) true).state.color =
        some (Color.mk t.1 t.2.1 t.2.2)) := by
  refine ⟨?_, ?_, ?_⟩
  · intro n
    simp only [Color.from_rgb_int, channels_in_range]
    refine ⟨by positivity, by omega, by positivity, by omega, by positivity, by omega⟩
  · intro hx c hok
    simp only [Color.from_hex] at hok
    split at hok
    · split at hok
      · rename_i a b cc d e f va vb vc vd ve vf ha hb hc hd he hf
        injection hok with hok
        subst hok
        have := hexDigitVal_lt _ _ ha
        have := hexDigitVal_lt _ _ hb
        have := hexDigitVal_lt _ _ hc
        have := hexDigitVal_lt _ _ hd
        have := hexDigitVal_lt _ _ he
        have := hexDigitVal_lt _ _ hf
        simp only [channels_in_range]
        refine ⟨by positivity, by omega, by positivity, by omega,
          by positivity, by omega⟩
      · simp at hok
    · split at hok
      · rename_i a b cc va vb vc ha hb hc
        injection hok with hok
        subst hok
        have := hexDigitVal_lt _ _ ha
        have := hexDigitVal_lt _ _ hb
        have := hexDigitVal_lt _ _ hc
        simp only [channels_in_range]
        refine ⟨by positivity, by omega, by positivity, by omega,
          by positivity, by omega⟩
      · simp at hok
    · simp at hok
  · intro s t
    rfl

/-- C8 witness: in-range channels for a packed-integer color and a parsed
hex color, and the unvalidated tuple path at a concrete out-of-range
triple. -/
theorem C8_witness :
    channels_in_range (Color.from_rgb_int 123456) ∧
    channels_in_range (Color.mk 255 0 0) ∧
    (set_color sampleLight (.rgbTuple (300, 0, 0)) true).state.color =
      some (Color.mk 300 0 0) :=
  ⟨C8_channel_range_amended.1 123456,
   C8_channel_range_amended.2.1 ['#', 'f', 'f', '0', '0', '0', '0']
     (Color.mk 255 0 0) (by rfl),
   C8_channel_range_amended.2.2 sampleLight (300, 0, 0)⟩

end IotLights
